import Mathlib

/-!
# Verification of the US census map spatial analytics core

Shallow embedding of the spatial analytics engine of the us-census-map
repository: the statistical aggregators (`calculateCircleStats` in
`src/js/spatialUtils.js`, `calculateDonutStats` in the ring-variant
visualizer), the hotspot clusterer (`findHotspots`, `mergeAdjacentCells`),
the TTL cache (`getFromCache`, `cacheData`), the batched fetch client
(`fetchCombinedData`, `fetchMissingData`, `fetchBatchFromAPI`, `chunkArray`)
and the directional marker navigators.

JavaScript numbers are modelled as `ℚ` (exact rationals).  The only places
the source applies `Math.sqrt` are (a) inside comparisons of distances,
where comparing the squares is order-equivalent because `sqrt` is strictly
monotone on nonnegatives — those spots are embedded with squared
comparisons — and (b) the score formula of the `mapVisualizer.js` navigator
variant, which is embedded over `ℝ` with `Real.sqrt`.  Geodesic distances
(`haversineDistance`, a fixed transcendental function of the coordinates)
enter the aggregators only through the membership comparison against the
radius bounds, so the aggregators are parameterized by the distance
function `dist` of type marker `→ ℚ`; every claim about them is proved for
all `dist`.
-/

namespace CensusMap

/-- Classified per-ZIP marker payload, as produced by `parseResponse` and
consumed by the aggregators: the two boolean criteria flags, the two
numeric totals and the (possibly missing) median income.
`medianIncome` is `Option ℚ`: `none` models JS `null`/`undefined`. -/
structure MarkerData where
  hasEducation : Bool
  hasIncome : Bool
  totalHigherEd : ℚ
  totalHighIncomeHouseholds : ℚ
  medianIncome : Option ℚ
deriving DecidableEq, Repr

/-- JS truthiness of a number: `0` (and `NaN`, not modelled) is falsy,
every other number is truthy. -/
def truthyQ (q : ℚ) : Bool := q != 0

/-- JS truthiness of a possibly-missing number: `null`/`undefined` and `0`
are falsy. -/
def truthyOpt : Option ℚ → Bool
  | none => false
  | some v => v != 0

/-- The sort comparator `(a, b) => a - b` used on the collected
median-income lists: ascending numeric order.  A sorted permutation of a
list of rationals is unique as a value sequence, so the stable
`insertionSort` gives exactly the array JS `sort` produces. -/
def sortAsc (l : List ℚ) : List ℚ := l.insertionSort (· ≤ ·)

/-- The inline median computation shared verbatim by
`calculateCircleStats` (spatialUtils.js lines 257-264) and
`calculateDonutStats` (ring variant): sort ascending, `mid = ⌊len/2⌋`,
average the two middle elements for even length, middle element for odd
length.  The source only assigns `result.medianIncome` when the collected
list is non-empty; `none` models the field staying `undefined`. -/
def jsMedian (l : List ℚ) : Option ℚ :=
  if l.length = 0 then none
  else
    let sorted := sortAsc l
    let mid := l.length / 2
    if l.length % 2 = 0 then some ((sorted.getD (mid - 1) 0 + sorted.getD mid 0) / 2)
    else some (sorted.getD mid 0)

/-- `specMedian` — the statistical median as §4.2 of the spec words it
(refinement reference, not translated from the source): collect the
values, sort ascending, take the middle element, or the average of the two
middle elements for an even count; an empty list yields no median. -/
def specMedian (l : List ℚ) : Option ℚ :=
  if l = [] then none
  else if l.length % 2 = 1 then some ((sortAsc l).getD (l.length / 2) 0)
  else some (((sortAsc l).getD (l.length / 2 - 1) 0 + (sortAsc l).getD (l.length / 2) 0) / 2)

namespace SpatialUtils

/-- The `result` record accumulated by `SpatialUtils.calculateCircleStats`
(spatialUtils.js lines 211-279).  `medianIncome` is `none` until the final
median step assigns it; `areaSqKm` (π·(r/1000)², presentation-only and
irrational) is omitted. -/
structure CircleStats where
  totalMarkers : ℕ
  educationOnly : ℕ
  incomeOnly : ℕ
  bothCriteria : ℕ
  totalEducation : ℚ
  totalHighIncome : ℚ
  medianIncomes : List ℚ
  educationValues : List ℚ
  incomeValues : List ℚ
  markers : List MarkerData
  medianIncome : Option ℚ
  meanEducation : ℚ
  meanHighIncome : ℚ
  radiusKm : ℚ
deriving DecidableEq, Repr

/-- The all-zero initial `result` object of `calculateCircleStats`. -/
def initCircleStats : CircleStats :=
  { totalMarkers := 0, educationOnly := 0, incomeOnly := 0, bothCriteria := 0
    totalEducation := 0, totalHighIncome := 0
    medianIncomes := [], educationValues := [], incomeValues := [], markers := []
    medianIncome := none, meanEducation := 0, meanHighIncome := 0, radiusKm := 0 }

/-- One iteration of the `markers.forEach` loop of `calculateCircleStats`:
the source compares `haversineDistance(center, marker) <= radiusMeters`;
the distance computation is abstracted as `dist`. -/
def circleStep (dist : MarkerData → ℚ) (radiusMeters : ℚ) (s : CircleStats)
    (m : MarkerData) : CircleStats :=
  if dist m ≤ radiusMeters then
    let s1 := { s with totalMarkers := s.totalMarkers + 1, markers := s.markers ++ [m] }
    let s2 :=
      if m.hasEducation && m.hasIncome then { s1 with bothCriteria := s1.bothCriteria + 1 }
      else if m.hasEducation then { s1 with educationOnly := s1.educationOnly + 1 }
      else if m.hasIncome then { s1 with incomeOnly := s1.incomeOnly + 1 }
      else s1
    let s3 :=
      if truthyQ m.totalHigherEd then
        { s2 with totalEducation := s2.totalEducation + m.totalHigherEd
                  educationValues := s2.educationValues ++ [m.totalHigherEd] }
      else s2
    let s4 :=
      if truthyQ m.totalHighIncomeHouseholds then
        { s3 with totalHighIncome := s3.totalHighIncome + m.totalHighIncomeHouseholds
                  incomeValues := s3.incomeValues ++ [m.totalHighIncomeHouseholds] }
      else s3
    if truthyOpt m.medianIncome then
      { s4 with medianIncomes := s4.medianIncomes ++ [m.medianIncome.getD 0] }
    else s4
  else s

/-- `SpatialUtils.calculateCircleStats` (spatialUtils.js lines 211-279):
accumulate over the markers, then fill the median (only when values were
collected), the two means and the radius field. -/
def calculateCircleStats (dist : MarkerData → ℚ) (radiusMeters : ℚ)
    (markers : List MarkerData) : CircleStats :=
  let r := markers.foldl (circleStep dist radiusMeters) initCircleStats
  { r with
    medianIncome := jsMedian r.medianIncomes
    meanEducation :=
      if 0 < r.educationValues.length then r.totalEducation / (r.educationValues.length : ℚ)
      else 0
    meanHighIncome :=
      if 0 < r.incomeValues.length then r.totalHighIncome / (r.incomeValues.length : ℚ)
      else 0
    radiusKm := radiusMeters / 1000 }

end SpatialUtils

namespace Visualizer

/-- A map marker of the ring-variant visualizer: its `data` payload may be
absent (`if (!marker.data) return;` skips such markers).  The marker's
coordinates enter `calculateDonutStats` only through the haversine
distance, abstracted as the `dist` parameter below. -/
structure DMarker where
  data : Option MarkerData
deriving DecidableEq, Repr

/-- The `stats` record accumulated by
`ACSMapVisualizer.calculateDonutStats` (ring variant, lines 497-546). -/
structure DonutStats where
  totalMarkers : ℕ
  educationOnly : ℕ
  incomeOnly : ℕ
  bothCriteria : ℕ
  totalEducation : ℚ
  totalHighIncome : ℚ
  medianIncomes : List ℚ
  medianIncome : Option ℚ
deriving DecidableEq, Repr

/-- Initial `stats` object of `calculateDonutStats`. -/
def initDonutStats : DonutStats :=
  { totalMarkers := 0, educationOnly := 0, incomeOnly := 0, bothCriteria := 0
    totalEducation := 0, totalHighIncome := 0, medianIncomes := [], medianIncome := none }

/-- One iteration of the `this.markers.forEach` loop of
`calculateDonutStats`: skip markers without data, then test
`minMeters < distance && distance <= maxMeters`.  The `|| 0` guards on the
two totals model JS `undefined` defaulting; the payload always carries the
rationals here, so they add the value itself. -/
def donutStep (dist : DMarker → ℚ) (minMeters maxMeters : ℚ) (s : DonutStats)
    (m : DMarker) : DonutStats :=
  match m.data with
  | none => s
  | some d =>
    if minMeters < dist m ∧ dist m ≤ maxMeters then
      let s1 := { s with totalMarkers := s.totalMarkers + 1 }
      let s2 :=
        if d.hasEducation && d.hasIncome then { s1 with bothCriteria := s1.bothCriteria + 1 }
        else if d.hasEducation then { s1 with educationOnly := s1.educationOnly + 1 }
        else if d.hasIncome then { s1 with incomeOnly := s1.incomeOnly + 1 }
        else s1
      let s3 := { s2 with totalEducation := s2.totalEducation + d.totalHigherEd
                          totalHighIncome := s2.totalHighIncome + d.totalHighIncomeHouseholds }
      if truthyOpt d.medianIncome then
        { s3 with medianIncomes := s3.medianIncomes ++ [d.medianIncome.getD 0] }
      else s3
    else s

/-- `ACSMapVisualizer.calculateDonutStats` (ring variant, lines 497-546):
accumulate over the markers of the band `(minMeters, maxMeters]`, then
fill the median when values were collected. -/
def calculateDonutStats (dist : DMarker → ℚ) (markers : List DMarker)
    (minMeters maxMeters : ℚ) : DonutStats :=
  let r := markers.foldl (donutStep dist minMeters maxMeters) initDonutStats
  { r with medianIncome := jsMedian r.medianIncomes }

/-- `finishDrawing` constants (ring variant, lines 338-346): fixed radii
in miles and the miles→meters factor `1609.34`. -/
def innerRadiusMiles : ℚ := 5

/-- Fixed middle-ring radius in miles. -/
def middleRadiusMiles : ℚ := 10

/-- Fixed outer-ring radius in miles. -/
def outerRadiusMiles : ℚ := 25

/-- `milesToMeters = 1609.34`. -/
def milesToMeters : ℚ := 160934 / 100

/-- `innerRadiusMeters = innerRadiusMiles * milesToMeters`. -/
def innerRadiusMeters : ℚ := innerRadiusMiles * milesToMeters

/-- `middleRadiusMeters = middleRadiusMiles * milesToMeters`. -/
def middleRadiusMeters : ℚ := middleRadiusMiles * milesToMeters

/-- `outerRadiusMeters = outerRadiusMiles * milesToMeters`. -/
def outerRadiusMeters : ℚ := outerRadiusMiles * milesToMeters

/-- The unweighted outer donut band of `finishDrawing`:
`calculateDonutStats(center, middleRadiusMeters, outerRadiusMeters)`. -/
def outerDonutStats (dist : DMarker → ℚ) (markers : List DMarker) : DonutStats :=
  calculateDonutStats dist markers middleRadiusMeters outerRadiusMeters

/-- The weighted outer donut band of `finishDrawing`: the outer multiplier
is 1, and the source computes
`calculateDonutStats(center, middleRadiusMiles * milesToMeters, outerRadiusMiles * milesToMeters)`
(the comment there reads "×1 means SAME AS REGULAR OUTER (10-25 miles)"). -/
def weightedOuterDonutStats (dist : DMarker → ℚ) (markers : List DMarker) : DonutStats :=
  calculateDonutStats dist markers (middleRadiusMiles * milesToMeters)
    (outerRadiusMiles * milesToMeters)

end Visualizer

namespace APIService

/-- A durable cache entry, as written by `ACSAPIService.cacheData`
(part_002 lines 376-397).  Timestamps are integer epoch milliseconds. -/
structure CacheEntry (V : Type) where
  key : String
  data : V
  expiry : ℤ
  cachedAt : ℤ
  zip : String
deriving DecidableEq, Repr

/-- The service's durable-store state: `db` is whether IndexedDB
initialized (`this.db`), `store` the object store whose `keyPath` is the
entry's `key` field. -/
structure CacheState (V : Type) where
  db : Bool
  store : List (CacheEntry V)
deriving DecidableEq, Repr

/-- `this.cachePrefix`. -/
def cachePrefix : String := "acs_2022_"

/-- `this.cacheDuration` (constructor: `90 * 24 * 60 * 60 * 1000`). -/
def cacheDuration : ℤ := 90 * 24 * 60 * 60 * 1000

/-- `store.get(key)` on a keyPath-keyed object store. -/
def storeGet {V : Type} (store : List (CacheEntry V)) (k : String) : Option (CacheEntry V) :=
  store.find? (fun e => e.key == k)

/-- `store.put(entry)` on a keyPath-keyed object store: replace the entry
with the same key, or add the entry. -/
def storePut {V : Type} (store : List (CacheEntry V)) (e : CacheEntry V) :
    List (CacheEntry V) :=
  if store.any (fun e2 => e2.key == e.key) then
    store.map (fun e2 => if e2.key == e.key then e else e2)
  else store ++ [e]

/-- `store.delete(key)`. -/
def storeDelete {V : Type} (store : List (CacheEntry V)) (k : String) :
    List (CacheEntry V) :=
  store.filter (fun e => !(e.key == k))

/-- `ACSAPIService.getFromCache(zip)` (part_002 lines 334-363): `null`
when the durable store is unavailable; look up `cachePrefix + zip`; on a
hit past its TTL (`Date.now() > cached.expiry`) delete the entry and
report a miss; otherwise resolve the cached payload.  Returns the resolved
value together with the resulting store state; `now` is `Date.now()`. -/
def getFromCache {V : Type} (s : CacheState V) (now : ℤ) (zip : String) :
    Option V × CacheState V :=
  if s.db = false then (none, s)
  else
    let cacheKey := cachePrefix ++ zip
    match storeGet s.store cacheKey with
    | none => (none, s)
    | some cached =>
      if now > cached.expiry then (none, { s with store := storeDelete s.store cacheKey })
      else (some cached.data, s)

/-- `ACSAPIService.cacheData(zip, data)` (part_002 lines 376-397): no-op
when the durable store is unavailable; otherwise put an entry under
`cachePrefix + zip` with `expiry = Date.now() + cacheDuration`. -/
def cacheData {V : Type} (s : CacheState V) (now : ℤ) (zip : String) (d : V) :
    CacheState V :=
  if s.db = false then s
  else
    let cacheKey := cachePrefix ++ zip
    let entry : CacheEntry V :=
      { key := cacheKey, data := d, expiry := now + cacheDuration, cachedAt := now, zip := zip }
    { s with store := storePut s.store entry }

/-- `ACSAPIService.chunkArray(array, size)` (part_002 lines 481-487):
`for (i = 0; i < array.length; i += size) chunks.push(array.slice(i, i + size))`.
Embedded with a structural fuel argument (the list length bounds the
number of loop iterations whenever `0 < size`) so that the definition
evaluates by kernel reduction. -/
def chunkAux {α : Type} (size : ℕ) : ℕ → List α → List (List α)
  | _, [] => []
  | 0, _ :: _ => []
  | fuel + 1, a :: l => (a :: l).take size :: chunkAux size fuel ((a :: l).drop size)

/-- `chunkArray` entry point: the fuel is the input length. -/
def chunkArray {α : Type} (l : List α) (size : ℕ) : List (List α) :=
  chunkAux size l.length l

/-- The chunk lengths of `chunkAux`, as a function of the input length
only (`ℕ`-level mirror used to compute batch size lists). -/
def chunkLens (size : ℕ) : ℕ → ℕ → List ℕ
  | _, 0 => []
  | 0, _ + 1 => []
  | fuel + 1, n + 1 => min size (n + 1) :: chunkLens size fuel (n + 1 - size)

/-- `[...new Set(zipCodes)]` — deduplication keeping first occurrences,
threading the set of already-seen elements. -/
def setDedupAux {α : Type} [DecidableEq α] (seen : List α) : List α → List α
  | [] => []
  | a :: l => if a ∈ seen then setDedupAux seen l else a :: setDedupAux (a :: seen) l

/-- `const uniqueZips = [...new Set(zipCodes)]` (part_002 line 122). -/
def setDedup {α : Type} [DecidableEq α] (l : List α) : List α := setDedupAux [] l

/-- Association lookup in a per-ZIP result object (`results[zip]`). -/
def alookup {α V : Type} [DecidableEq α] (l : List (α × V)) (k : α) : Option V :=
  match l.find? (fun p => p.1 == k) with
  | some p => some p.2
  | none => none

/-- `Object.assign(a, b)`: the keys of `a` and `b`, where `b`'s bindings
override `a`'s.  (Represented with `b`'s bindings appended after the
non-overridden part of `a`; lookup and key-presence semantics agree with
the JS object.) -/
def objAssign {α V : Type} [DecidableEq α] (a b : List (α × V)) : List (α × V) :=
  a.filter (fun p => (alookup b p.1).isNone) ++ b

/-- `ACSAPIService.fetchBatchFromAPI(zipCodes)` (part_002 lines 213-255),
embedded with a structural fuel so it evaluates by kernel reduction.  The
network round-trip plus `parseResponse` is abstracted as `oracle`
(`none` = the request threw, `some` = the parsed per-ZIP result object).
Empty input resolves `{}`; on a fetch failure a batch of more than 5 ZIPs
is recursively retried as `chunkArray(zipCodes, 5)` sub-batches whose
individual failures are swallowed (`catch` + continue), and a batch of at
most 5 re-throws.  Each recursive call is on a chunk of length ≤ 5 < the
current length, so fuel = initial batch length suffices and the fuel-zero
branch is unreachable from the entry point below. -/
def fetchBatchAux {α V : Type} [DecidableEq α]
    (oracle : List α → Option (List (α × V))) : ℕ → List α → Except Unit (List (α × V))
  | _, [] => .ok []
  | 0, _ :: _ => .error ()
  | fuel + 1, a :: l =>
    match oracle (a :: l) with
    | some data => .ok data
    | none =>
      if 5 < (a :: l).length then
        .ok ((chunkArray (a :: l) 5).foldl
          (fun acc c =>
            match fetchBatchAux oracle fuel c with
            | .ok r => objAssign acc r
            | .error _ => acc) [])
      else .error ()

/-- Entry point of `fetchBatchFromAPI`: fuel is the batch length. -/
def fetchBatchFromAPI {α V : Type} [DecidableEq α]
    (oracle : List α → Option (List (α × V))) (zips : List α) :
    Except Unit (List (α × V)) :=
  fetchBatchAux oracle zips.length zips

/-- `ACSAPIService.fetchMissingData(zipCodes)` (part_002 lines 186-211):
split into batches of `this.batchSize = 30`, call `fetchBatchFromAPI` per
batch, `Object.assign` successful results into the accumulator and swallow
(`catch` + log) failed batches.  The return type records that no batch
failure propagates to the caller. -/
def fetchMissingData {α V : Type} [DecidableEq α]
    (oracle : List α → Option (List (α × V))) (zips : List α) : List (α × V) :=
  (chunkArray zips 30).foldl
    (fun acc b =>
      match fetchBatchFromAPI oracle b with
      | .ok r => objAssign acc r
      | .error _ => acc) []

/-- The sequence of cache lookups performed by `fetchCombinedData`
(part_002 lines 114-161): the input is deduplicated
(`[...new Set(zipCodes)]`), processed in chunks of 300
(`this.chunkArray(uniqueZips, 300)`), and `processChunk` performs one
cache lookup per element of each chunk. -/
def cacheLookupSequence {α : Type} [DecidableEq α] (zips : List α) : List α :=
  (chunkArray (setDedup zips) 300).flatten

/-- The cache-missing ZIPs of `fetchCombinedData`, in lookup order:
`processChunk` pushes each looked-up ZIP whose cache read misses.  The
cache is abstracted as a read-only map `cache` (the two-tier
memory/durable lookup of the source; within one call each deduplicated ZIP
is looked up once, so a stable map is faithful). -/
def missingZips {α V : Type} [DecidableEq α] (cache : α → Option V) (zips : List α) :
    List α :=
  (cacheLookupSequence zips).filter (fun z => (cache z).isNone)

/-- The upstream batches issued for the missing ZIPs:
`fetchMissingData` splits them as `chunkArray(missingZips, 30)`. -/
def upstreamBatches {α V : Type} [DecidableEq α] (cache : α → Option V) (zips : List α) :
    List (List α) :=
  chunkArray (missingZips cache zips) 30

/-- `ACSAPIService.fetchCombinedData(zipCodes)` (part_002 lines 114-161):
empty input resolves `{}`; cache hits are collected into `results`, the
missing ZIPs are fetched via `fetchMissingData` and merged in
(`results.set` per fetched ZIP = assign semantics). -/
def fetchCombinedData {α V : Type} [DecidableEq α] (cache : α → Option V)
    (oracle : List α → Option (List (α × V))) (zips : List α) : List (α × V) :=
  if zips = [] then []
  else
    let hits := (cacheLookupSequence zips).filterMap (fun z => (cache z).map (fun v => (z, v)))
    objAssign hits (fetchMissingData oracle (missingZips cache zips))

end APIService

namespace Hotspots

/-- A marker as consumed by `SpatialUtils.findHotspots` (spatialUtils.js
lines 17-131): coordinates plus the two criteria flags. -/
structure HMarker where
  lat : ℚ
  lng : ℚ
  hasEducation : Bool
  hasIncome : Bool
deriving DecidableEq, Repr

/-- `const gridSize = 0.1` (0.1° ≈ 11 km at the equator). -/
def gridSize : ℚ := 1 / 10

/-- The combined value a marker contributes to its cell: 3 for both
criteria, 1 for a single criterion, 0 otherwise. -/
def markerValue (m : HMarker) : ℚ :=
  if m.hasEducation && m.hasIncome then 3
  else if m.hasEducation || m.hasIncome then 1
  else 0

/-- A grid cell of step 1: the source accumulates into `avgLat`/`avgLng`
and divides by `count` in step 2; the running sums are named `sumLat` and
`sumLng` here (the `bbox` field is presentation-only and omitted). -/
structure GridCell where
  markers : List HMarker
  totalValue : ℚ
  sumLat : ℚ
  sumLng : ℚ
  count : ℕ
  cellX : ℤ
  cellY : ℤ
deriving DecidableEq, Repr

/-- `cellX = Math.floor(lat / gridSize)`. -/
def cellX (m : HMarker) : ℤ := ⌊m.lat / gridSize⌋

/-- `cellY = Math.floor(lng / gridSize)`. -/
def cellY (m : HMarker) : ℤ := ⌊m.lng / gridSize⌋

/-- Adding a marker's contribution to its cell. -/
def addToCell (c : GridCell) (m : HMarker) : GridCell :=
  { c with markers := c.markers ++ [m]
           totalValue := c.totalValue + markerValue m
           sumLat := c.sumLat + m.lat
           sumLng := c.sumLng + m.lng
           count := c.count + 1 }

/-- One iteration of the grid-bucketing `markers.forEach` (step 1): create
the cell on first sight (JS `Map` preserves insertion order, modelled by
appending new cells at the end), then accumulate the marker into it. -/
def addMarkerToGrid (grid : List GridCell) (m : HMarker) : List GridCell :=
  if grid.any (fun c => c.cellX == cellX m && c.cellY == cellY m) then
    grid.map (fun c => if c.cellX == cellX m && c.cellY == cellY m then addToCell c m else c)
  else
    grid ++ [addToCell ⟨[], 0, 0, 0, 0, cellX m, cellY m⟩ m]

/-- Step 1: the spatial grid in cell-insertion order. -/
def buildGrid (markers : List HMarker) : List GridCell := markers.foldl addMarkerToGrid []

/-- A pre-merge hotspot of step 2 (and the running `cluster` object of the
merge pass): centroid, member count, total value, intensity, members.
The `id`/`bbox` fields are presentation-only and omitted. -/
structure Hotspot where
  avgLat : ℚ
  avgLng : ℚ
  count : ℕ
  totalValue : ℚ
  intensity : ℚ
  markers : List HMarker
deriving DecidableEq, Repr

instance : Inhabited Hotspot := ⟨⟨0, 0, 0, 0, 0, []⟩⟩

/-- Step 2 for one cell: divide the coordinate sums by the count and score
`intensity = density * avgValue` with `density = count` and
`avgValue = totalValue / count`. -/
def hotspotOfCell (c : GridCell) : Hotspot :=
  { avgLat := c.sumLat / (c.count : ℚ)
    avgLng := c.sumLng / (c.count : ℚ)
    count := c.count
    totalValue := c.totalValue
    intensity := (c.count : ℚ) * (c.totalValue / (c.count : ℚ))
    markers := c.markers }

/-- Step 2 over the grid: cells with `count === 0` are skipped. -/
def cellHotspots (grid : List GridCell) : List Hotspot :=
  (grid.filter (fun c => c.count != 0)).map hotspotOfCell

/-- The merge of one close-by hotspot `h` into the running `cluster`
(spatialUtils.js lines 164-172): concatenate members, add counts, total
values and intensities, and halve-average the centroids. -/
def mergeInto (cluster h : Hotspot) : Hotspot :=
  { markers := cluster.markers ++ h.markers
    count := cluster.count + h.count
    totalValue := cluster.totalValue + h.totalValue
    intensity := cluster.intensity + h.intensity
    avgLat := (cluster.avgLat + h.avgLat) / 2
    avgLng := (cluster.avgLng + h.avgLng) / 2 }

/-- The merge test (spatialUtils.js lines 160-164): the source compares
`Math.sqrt(dx*dx + dy*dy) < mergeDistance`; squaring both (nonnegative)
sides gives the order-equivalent comparison used here. -/
def closeEnough (a b : Hotspot) (mergeDistance : ℚ) : Bool :=
  let dx := |a.avgLat - b.avgLat|
  let dy := |a.avgLng - b.avgLng|
  decide (dx * dx + dy * dy < mergeDistance * mergeDistance)

/-- The inner `j` loop of `mergeAdjacentCells` for a fixed `i`: fold over
the remaining indices, merging every unused hotspot whose distance from
the ORIGINAL `hotspots[i]` (not the running cluster) is below the merge
distance, and marking it used. -/
def innerMergeStep (hs : List Hotspot) (i : ℕ) (mergeDistance : ℚ)
    (st : Hotspot × List ℕ) (j : ℕ) : Hotspot × List ℕ :=
  if j ∈ st.2 then st
  else if closeEnough (hs.getD i default) (hs.getD j default) mergeDistance then
    (mergeInto st.1 (hs.getD j default), st.2 ++ [j])
  else st

/-- The outer `i` loop of `mergeAdjacentCells`: skip used indices,
initialize the cluster as a copy of `hotspots[i]`, run the inner loop over
`j = i+1 .. n-1`, and push the resulting cluster. -/
def outerMergeStep (hs : List Hotspot) (mergeDistance : ℚ)
    (acc : List Hotspot × List ℕ) (i : ℕ) : List Hotspot × List ℕ :=
  if i ∈ acc.2 then acc
  else
    let inner := (List.range' (i + 1) (hs.length - (i + 1))).foldl
      (innerMergeStep hs i mergeDistance) (hs.getD i default, acc.2 ++ [i])
    (acc.1 ++ [inner.1], inner.2)

/-- `SpatialUtils.mergeAdjacentCells(hotspots, mergeDistance)`
(spatialUtils.js lines 136-184): single greedy sweep with a `used` set. -/
def mergeAdjacentCells (hs : List Hotspot) (mergeDistance : ℚ) : List Hotspot :=
  if hs.length ≤ 1 then hs
  else ((List.range hs.length).foldl (outerMergeStep hs mergeDistance) ([], [])).1

/-- `SpatialUtils.calculateGeographicCenter(markers)` (lines 189-202):
unweighted mean of the member coordinates, `(0,0)` for no members. -/
def calculateGeographicCenter (markers : List HMarker) : ℚ × ℚ :=
  if markers.length = 0 then (0, 0)
  else
    let lat := markers.foldl (fun acc m => acc + m.lat) 0
    let lng := markers.foldl (fun acc m => acc + m.lng) 0
    (lat / (markers.length : ℚ), lng / (markers.length : ℚ))

/-- A ranked hotspot of step 4: rank (dense, 1-based), recomputed
geographic center, and the cluster data carried over.  The source also
sets `radius = Math.sqrt(count) * 5000` (irrational, presentation-only)
and the `name`/`description` strings; those fields are omitted. -/
structure RankedHotspot where
  rank : ℕ
  lat : ℚ
  lng : ℚ
  count : ℕ
  totalValue : ℚ
  intensity : ℚ
  markers : List HMarker
deriving DecidableEq, Repr

/-- The `.map((hotspot, index) => ...)` of step 4 with the 0-based index
threaded explicitly: `rank = index + 1` and the center is recomputed from
the member markers. -/
def finalizeHotspots : ℕ → List Hotspot → List RankedHotspot
  | _, [] => []
  | idx, h :: t =>
    let center := calculateGeographicCenter h.markers
    { rank := idx + 1, lat := center.1, lng := center.2, count := h.count
      totalValue := h.totalValue, intensity := h.intensity, markers := h.markers }
      :: finalizeHotspots (idx + 1) t

/-- The comparator `(a, b) => b.intensity - a.intensity`: descending by
intensity.  JS `Array.prototype.sort` is stable, as is `insertionSort`,
so the embedding produces exactly the sorted array of the source. -/
def intensityDesc (a b : Hotspot) : Prop := b.intensity ≤ a.intensity

instance : DecidableRel intensityDesc :=
  fun a b => inferInstanceAs (Decidable (b.intensity ≤ a.intensity))

instance : IsTotal Hotspot intensityDesc :=
  ⟨fun a b => le_total b.intensity a.intensity⟩

instance : IsTrans Hotspot intensityDesc :=
  ⟨fun _ _ _ hab hbc => le_trans hbc hab⟩

/-- `SpatialUtils.findHotspots(markers)` (spatialUtils.js lines 17-131),
the pure computation guarded by the 5-minute result cache: empty input
yields `[]`; otherwise grid-bucket, score, merge with distance
`gridSize * 1.5`, sort by descending intensity, keep the top 50 and assign
dense ranks. -/
def findHotspots (markers : List HMarker) : List RankedHotspot :=
  if markers = [] then []
  else
    let grid := buildGrid markers
    let hotspots := cellHotspots grid
    let merged := mergeAdjacentCells hotspots (gridSize * (3 / 2))
    let sorted := merged.insertionSort intensityDesc
    finalizeHotspots 0 (sorted.take 50)

end Hotspots

namespace Navigator

/-- One of the four WASD navigation keys: `w` = north, `s` = south,
`a` = west, `d` = east. -/
inductive KeyDir
  | w
  | a
  | s
  | d
deriving DecidableEq, Repr

/-- A visible marker as seen by the keyboard navigator (only its
coordinates matter for selection). -/
structure NavMarker where
  lat : ℚ
  lng : ℚ
deriving DecidableEq, Repr

/-- The squared planar distance `latDiff² + lngDiff²` from the current
map center.  The source of the part_000 navigator computes
`Math.sqrt(latDiff*latDiff + lngDiff*lngDiff)` and only ever compares
distances with `<`; comparing the squares is order-equivalent because
`sqrt` is strictly monotone on nonnegatives. -/
def distSq (center : ℚ × ℚ) (m : NavMarker) : ℚ :=
  let latDiff := m.lat - center.1
  let lngDiff := m.lng - center.2
  latDiff * latDiff + lngDiff * lngDiff

/-- The direction test of the part_000 navigator (lines 1442-1451):
strict coordinate inequality against the current center per key. -/
def isInDirection (key : KeyDir) (center : ℚ × ℚ) (m : NavMarker) : Bool :=
  match key with
  | .w => decide (m.lat > center.1)
  | .s => decide (m.lat < center.1)
  | .a => decide (m.lng < center.2)
  | .d => decide (m.lng > center.2)

/-- One iteration of the `this.markerList.forEach` loop of the part_000
navigator (lines 1431-1457): accept the marker as the new best when it is
in the requested direction and strictly closer than the best so far
(`bestDistance` starts at `Infinity`, modelled by the `none`
accumulator). -/
def navStep (center : ℚ × ℚ) (key : KeyDir) (acc : Option (ℚ × NavMarker))
    (m : NavMarker) : Option (ℚ × NavMarker) :=
  let d := distSq center m
  let better :=
    match acc with
    | none => true
    | some (bd, _) => decide (d < bd)
  if isInDirection key center m && better then some (d, m) else acc

/-- The WASD selection of `ACSMapVisualizer.setupKeyboardNavigation` in
part_000 (lines 1410-1476): fold over the visible markers, return the
best marker (`bestMarker` stays `null` when no marker qualifies, and the
navigator then takes no action). -/
def findNearestInDirection (markers : List NavMarker) (center : ℚ × ℚ)
    (key : KeyDir) : Option NavMarker :=
  (markers.foldl (navStep center key) none).map Prod.snd

/-- A marker of the `src/js/mapVisualizer.js` navigator variant, embedded
over `ℝ` because its score formula applies `Math.sqrt` to values that are
not perfect squares in general. -/
structure RMarker where
  lat : ℝ
  lng : ℝ

/-- One iteration of the `this.markerList.forEach` loop of the
`src/js/mapVisualizer.js` variant (lines 185-223): markers at distance 0
are skipped; otherwise the marker is scored by
`max(0, dot(normalizedDiff, targetDir)) * 2 + (1 / (distance + 0.1)) * 0.5`
and the highest score wins (`bestScore` starts at `-Infinity`, modelled by
the `none` accumulator). -/
noncomputable def mvStep (center : ℝ × ℝ) (key : KeyDir)
    (acc : Option (ℝ × RMarker)) (m : RMarker) : Option (ℝ × RMarker) :=
  let latDiff := m.lat - center.1
  let lngDiff := m.lng - center.2
  let distance := Real.sqrt (latDiff * latDiff + lngDiff * lngDiff)
  if distance = 0 then acc
  else
    let normLat := latDiff / distance
    let normLng := lngDiff / distance
    let targetLat : ℝ := match key with | .w => 1 | .s => -1 | _ => 0
    let targetLng : ℝ := match key with | .a => -1 | .d => 1 | _ => 0
    let dotProduct := normLat * targetLat + normLng * targetLng
    let directionScore := max 0 dotProduct
    let distanceScore := 1 / (distance + 1 / 10)
    let score := directionScore * 2 + distanceScore * (1 / 2)
    match acc with
    | none => some (score, m)
    | some (bs, _) => if score > bs then some (score, m) else acc

/-- The WASD selection of `ACSMapVisualizer.setupKeyboardNavigation` in
`src/js/mapVisualizer.js` (lines 162-246): fold over the markers, then
navigate only when a best marker exists with `bestScore > 0.5`. -/
noncomputable def mvNavigate (markers : List RMarker) (center : ℝ × ℝ)
    (key : KeyDir) : Option RMarker :=
  match markers.foldl (mvStep center key) none with
  | none => none
  | some (bs, bm) => if bs > 1 / 2 then some bm else none

end Navigator

namespace SpatialUtils

/-- The "collected present `medianIncome` values among qualifying
markers" of the spec, for the circle aggregator: values of the markers
within the radius whose `medianIncome` is truthy, in input order. -/
def collectedIncomes (dist : MarkerData → ℚ) (radiusMeters : ℚ)
    (markers : List MarkerData) : List ℚ :=
  (markers.filter (fun m => dist m ≤ radiusMeters)).filterMap
    (fun m => if truthyOpt m.medianIncome then m.medianIncome else none)

end SpatialUtils

namespace Visualizer

/-- The collected present `medianIncome` values for the donut aggregator:
values of the markers with a data payload, inside the band, whose
`medianIncome` is truthy, in input order. -/
def collectedDonutIncomes (dist : DMarker → ℚ) (minMeters maxMeters : ℚ)
    (markers : List DMarker) : List ℚ :=
  markers.filterMap (fun m =>
    match m.data with
    | none => none
    | some d =>
      if (minMeters < dist m ∧ dist m ≤ maxMeters) ∧ truthyOpt d.medianIncome then
        d.medianIncome
      else none)

end Visualizer

namespace Hotspots

/-- First marker of the spec's three-marker hotspot scenario:
`(40.0, -100.0, edu=true, inc=false)`. -/
def scenarioM1 : HMarker := ⟨40, -100, true, false⟩

/-- Second marker of the scenario: `(40.05, -100.05, edu=true, inc=true)`
(40.05 = 801/20, -100.05 = -2001/20). -/
def scenarioM2 : HMarker := ⟨801 / 20, -2001 / 20, true, true⟩

/-- Third marker of the scenario: `(45.0, -90.0, edu=false, inc=true)`. -/
def scenarioM3 : HMarker := ⟨45, -90, false, true⟩

/-- The spec's three-marker scenario input. -/
def scenarioMarkers : List HMarker := [scenarioM1, scenarioM2, scenarioM3]

/-- Two single-criterion markers in far-apart grid cells: both resulting
hotspots get intensity `1 * 1 = 1`, an intensity tie. -/
def tieMarkers : List HMarker := [⟨0, 0, true, false⟩, ⟨45, -90, false, true⟩]

end Hotspots

namespace Navigator

/-- A marker one tenth of a degree due south of the origin. -/
noncomputable def mvSouthMarker : RMarker := ⟨-(1 / 10), 0⟩

end Navigator

namespace APIService

/-- Each chunk produced by `chunkAux` has length at most `size`; used both
for the sub-batch bound of `fetchBatchFromAPI` and for the ≤30 batch-size
bound of `fetchMissingData`. -/
theorem chunkAux_mem_length_le {α : Type} {size : ℕ} :
    ∀ (fuel : ℕ) (l : List α), ∀ c ∈ chunkAux size fuel l, c.length ≤ size := by
  intro fuel
  induction fuel with
  | zero => intro l c hc; cases l <;> simp [chunkAux] at hc
  | succ n ih =>
    intro l c hc
    cases l with
    | nil => simp [chunkAux] at hc
    | cons a t =>
      simp only [chunkAux, List.mem_cons] at hc
      rcases hc with rfl | hc
      · exact List.length_take_le size (a :: t)
      · exact ih ((a :: t).drop size) c hc

/-- Concatenating the chunks gives back the list (fuel sufficient, chunk
size positive). -/
theorem chunkAux_join {α : Type} {size : ℕ} (hs : 0 < size) :
    ∀ (fuel : ℕ) (l : List α), l.length ≤ fuel → (chunkAux size fuel l).flatten = l := by
  intro fuel
  induction fuel with
  | zero =>
    intro l hl
    have : l = [] := List.length_eq_zero.mp (Nat.le_zero.mp hl)
    subst this; simp [chunkAux]
  | succ n ih =>
    intro l hl
    cases l with
    | nil => simp [chunkAux]
    | cons a t =>
      have hdrop : ((a :: t).drop size).length ≤ n := by
        simp only [List.length_drop]
        omega
      simp [chunkAux, ih ((a :: t).drop size) hdrop]

/-- `setDedupAux` keeps exactly one copy of every element not yet seen. -/
theorem setDedupAux_count {α : Type} [DecidableEq α] (z : α) :
    ∀ (l seen : List α),
      (setDedupAux seen l).count z = if z ∈ l ∧ z ∉ seen then 1 else 0 := by
  intro l
  induction l with
  | nil => intro seen; simp [setDedupAux]
  | cons a t ih =>
    intro seen
    by_cases ha : a ∈ seen
    · rw [setDedupAux, if_pos ha, ih seen]
      by_cases hz : z = a
      · subst hz; simp [ha]
      · simp [hz]
    · rw [setDedupAux, if_neg ha]
      by_cases hz : z = a
      · subst hz
        rw [List.count_cons_self, ih (z :: seen)]
        simp [ha]
      · rw [List.count_cons_of_ne hz, ih (a :: seen)]
        by_cases hzt : z ∈ t <;> simp [hzt, hz, ha]

end APIService

namespace SpatialUtils

/-- The three category counters of `calculateCircleStats` sum to the total
marker count throughout the fold, provided every marker has at least one
criteria flag. -/
theorem circle_fold_sum (dist : MarkerData → ℚ) (radiusMeters : ℚ) :
    ∀ (markers : List MarkerData) (s : CircleStats),
      (∀ m ∈ markers, m.hasEducation || m.hasIncome) →
      s.educationOnly + s.incomeOnly + s.bothCriteria = s.totalMarkers →
      ((markers.foldl (circleStep dist radiusMeters) s).educationOnly
        + (markers.foldl (circleStep dist radiusMeters) s).incomeOnly
        + (markers.foldl (circleStep dist radiusMeters) s).bothCriteria
        = (markers.foldl (circleStep dist radiusMeters) s).totalMarkers) := by
  intro markers
  induction markers with
  | nil => intro s _ hs; simpa using hs
  | cons m t ih =>
    intro s hall hs
    simp only [List.foldl_cons]
    refine ih _ (fun x hx => hall x (List.mem_cons_of_mem _ hx)) ?_
    have hm : m.hasEducation || m.hasIncome := by
      simpa using hall m (List.mem_cons_self _ _)
    by_cases hdist : dist m ≤ radiusMeters
    · cases he : m.hasEducation <;> cases hi : m.hasIncome <;>
        by_cases h1 : truthyQ m.totalHigherEd <;>
        by_cases h2 : truthyQ m.totalHighIncomeHouseholds <;>
        by_cases h3 : truthyOpt m.medianIncome <;>
        simp_all [circleStep] <;> omega
    · simpa [circleStep, hdist] using hs

end SpatialUtils

namespace Visualizer

/-- The three category counters of `calculateDonutStats` sum to the total
marker count throughout the fold, provided every marker's data payload
(when present) has at least one criteria flag. -/
theorem donut_fold_sum (dist : DMarker → ℚ) (minMeters maxMeters : ℚ) :
    ∀ (markers : List DMarker) (s : DonutStats),
      (∀ m ∈ markers, m.data.all (fun d => d.hasEducation || d.hasIncome)) →
      s.educationOnly + s.incomeOnly + s.bothCriteria = s.totalMarkers →
      ((markers.foldl (donutStep dist minMeters maxMeters) s).educationOnly
        + (markers.foldl (donutStep dist minMeters maxMeters) s).incomeOnly
        + (markers.foldl (donutStep dist minMeters maxMeters) s).bothCriteria
        = (markers.foldl (donutStep dist minMeters maxMeters) s).totalMarkers) := by
  intro markers
  induction markers with
  | nil => intro s _ hs; simpa using hs
  | cons m t ih =>
    intro s hall hs
    simp only [List.foldl_cons]
    refine ih _ (fun x hx => hall x (List.mem_cons_of_mem _ hx)) ?_
    have hm := hall m (List.mem_cons_self _ _)
    cases hd : m.data with
    | none => simpa [donutStep, hd] using hs
    | some d =>
      rw [hd] at hm
      have hm2 : d.hasEducation || d.hasIncome := by simpa using hm
      by_cases hband : minMeters < dist m ∧ dist m ≤ maxMeters
      · cases he : d.hasEducation <;> cases hi : d.hasIncome <;>
          by_cases h3 : truthyOpt d.medianIncome <;>
          simp_all [donutStep] <;> omega
      · simpa [donutStep, hd, hband] using hs

end Visualizer

namespace SpatialUtils

/-- The median-income list accumulated by the `calculateCircleStats` fold
is the collected truthy `medianIncome` values of the markers inside the
radius. -/
theorem circle_fold_medianIncomes (dist : MarkerData → ℚ) (radiusMeters : ℚ) :
    ∀ (markers : List MarkerData) (s : CircleStats),
      (markers.foldl (circleStep dist radiusMeters) s).medianIncomes
        = s.medianIncomes ++ collectedIncomes dist radiusMeters markers := by
  intro markers
  induction markers with
  | nil => intro s; simp [collectedIncomes]
  | cons m t ih =>
    intro s
    simp only [List.foldl_cons]
    rw [ih]
    by_cases hdist : dist m ≤ radiusMeters
    · have hstep : (circleStep dist radiusMeters s m).medianIncomes
          = s.medianIncomes ++ (if truthyOpt m.medianIncome then [m.medianIncome.getD 0]
            else []) := by
        by_cases h3 : truthyOpt m.medianIncome <;>
          cases he : m.hasEducation <;> cases hi : m.hasIncome <;>
          by_cases h1 : truthyQ m.totalHigherEd <;>
          by_cases h2 : truthyQ m.totalHighIncomeHouseholds <;>
          simp_all [circleStep]
      rw [hstep]
      by_cases h3 : truthyOpt m.medianIncome
      · cases hmi : m.medianIncome with
        | none => rw [hmi] at h3; simp [truthyOpt] at h3
        | some v =>
          have h3v : truthyOpt (some v) = true := by rw [← hmi]; exact h3
          simp [collectedIncomes, List.filter_cons, hdist, List.filterMap_cons, hmi, h3v]
      · simp [collectedIncomes, List.filter_cons, hdist, List.filterMap_cons, h3]
    · have hstep : circleStep dist radiusMeters s m = s := by
        simp [circleStep, hdist]
      rw [hstep]
      simp [collectedIncomes, List.filter_cons, hdist]

end SpatialUtils

namespace Visualizer

/-- The median-income list accumulated by the `calculateDonutStats` fold
is the collected truthy `medianIncome` values of the data-bearing markers
inside the band. -/
theorem donut_fold_medianIncomes (dist : DMarker → ℚ) (minMeters maxMeters : ℚ) :
    ∀ (markers : List DMarker) (s : DonutStats),
      (markers.foldl (donutStep dist minMeters maxMeters) s).medianIncomes
        = s.medianIncomes ++ collectedDonutIncomes dist minMeters maxMeters markers := by
  intro markers
  induction markers with
  | nil => intro s; simp [collectedDonutIncomes]
  | cons m t ih =>
    intro s
    simp only [List.foldl_cons]
    rw [ih]
    cases hd : m.data with
    | none =>
      have hstep : donutStep dist minMeters maxMeters s m = s := by
        simp [donutStep, hd]
      rw [hstep]
      simp [collectedDonutIncomes, List.filterMap_cons, hd]
    | some d =>
      by_cases hband : minMeters < dist m ∧ dist m ≤ maxMeters
      · have hstep : (donutStep dist minMeters maxMeters s m).medianIncomes
            = s.medianIncomes ++ (if truthyOpt d.medianIncome then [d.medianIncome.getD 0]
              else []) := by
          by_cases h3 : truthyOpt d.medianIncome <;>
            cases he : d.hasEducation <;> cases hi : d.hasIncome <;>
            simp_all [donutStep]
        rw [hstep]
        by_cases h3 : truthyOpt d.medianIncome
        · cases hmi : d.medianIncome with
          | none => rw [hmi] at h3; simp [truthyOpt] at h3
          | some v =>
            have h3v : truthyOpt (some v) = true := by rw [← hmi]; exact h3
            simp [collectedDonutIncomes, List.filterMap_cons, hd, hband, hmi, h3v]
        · simp [collectedDonutIncomes, List.filterMap_cons, hd, h3, hband]
      · have hstep : donutStep dist minMeters maxMeters s m = s := by
          simp [donutStep, hd, hband]
        rw [hstep]
        simp [collectedDonutIncomes, List.filterMap_cons, hd, hband]

end Visualizer

/-- The inline median of the source equals the spec's statistical
median. -/
theorem jsMedian_eq_specMedian (l : List ℚ) : jsMedian l = specMedian l := by
  unfold jsMedian specMedian
  by_cases hl : l = []
  · subst hl; simp
  · have hlen : l.length ≠ 0 := by simpa [List.length_eq_zero] using hl
    rw [if_neg hlen, if_neg hl]
    rcases Nat.mod_two_eq_zero_or_one l.length with h2 | h2
    · rw [if_pos h2, if_neg (by omega)]
    · rw [if_neg (by omega), if_pos h2]

/-- C3: the reported `medianIncome` of `calculateCircleStats` and of
`calculateDonutStats` is the statistical median of the collected
`medianIncome` values of the qualifying markers — sorted ascending, middle
element for an odd count, average of the two middle elements for an even
count, and no value when the collection is empty; in particular
`[50000, 70000, 90000] ↦ 70000` and `[50000, 90000] ↦ 70000`. -/
theorem claim3_median_is_statistical_median :
    (∀ (dist : MarkerData → ℚ) (radiusMeters : ℚ) (markers : List MarkerData),
      (SpatialUtils.calculateCircleStats dist radiusMeters markers).medianIncome
        = specMedian (SpatialUtils.collectedIncomes dist radiusMeters markers))
    ∧ (∀ (dist : Visualizer.DMarker → ℚ) (markers : List Visualizer.DMarker)
        (minMeters maxMeters : ℚ),
      (Visualizer.calculateDonutStats dist markers minMeters maxMeters).medianIncome
        = specMedian (Visualizer.collectedDonutIncomes dist minMeters maxMeters markers))
    ∧ specMedian [50000, 70000, 90000] = some 70000
    ∧ specMedian [50000, 90000] = some 70000 := by
  refine ⟨fun dist r markers => ?_, fun dist markers mn mx => ?_, ?_, ?_⟩
  · have hm := SpatialUtils.circle_fold_medianIncomes dist r markers
      SpatialUtils.initCircleStats
    simp only [SpatialUtils.calculateCircleStats]
    rw [jsMedian_eq_specMedian]
    rw [hm]
    simp [SpatialUtils.initCircleStats]
  · have hm := Visualizer.donut_fold_medianIncomes dist mn mx markers
      Visualizer.initDonutStats
    simp only [Visualizer.calculateDonutStats]
    rw [jsMedian_eq_specMedian]
    rw [hm]
    simp [Visualizer.initDonutStats]
  · simp only [specMedian]
    rw [if_neg (by simp : ¬([50000, 70000, 90000] : List ℚ) = [])]
    norm_num [sortAsc, List.insertionSort, List.orderedInsert]
  · simp only [specMedian]
    rw [if_neg (by simp : ¬([50000, 90000] : List ℚ) = [])]
    norm_num [sortAsc, List.insertionSort, List.orderedInsert]

/-- C1: for every input marker array and region, the RegionStats record
returned by `calculateCircleStats` (and by `calculateDonutStats` in the
ring variant) satisfies
`educationOnly + incomeOnly + bothCriteria = totalMarkers`, provided
markers with neither `hasEducation` nor `hasIncome` were excluded
upstream. -/
theorem claim1_category_counts_sum (dist : MarkerData → ℚ) (radiusMeters : ℚ)
    (markers : List MarkerData) (ddist : Visualizer.DMarker → ℚ)
    (dmarkers : List Visualizer.DMarker) (minMeters maxMeters : ℚ)
    (hc : ∀ m ∈ markers, m.hasEducation || m.hasIncome)
    (hd : ∀ m ∈ dmarkers, m.data.all (fun d => d.hasEducation || d.hasIncome)) :
    ((SpatialUtils.calculateCircleStats dist radiusMeters markers).educationOnly
      + (SpatialUtils.calculateCircleStats dist radiusMeters markers).incomeOnly
      + (SpatialUtils.calculateCircleStats dist radiusMeters markers).bothCriteria
      = (SpatialUtils.calculateCircleStats dist radiusMeters markers).totalMarkers)
    ∧ ((Visualizer.calculateDonutStats ddist dmarkers minMeters maxMeters).educationOnly
      + (Visualizer.calculateDonutStats ddist dmarkers minMeters maxMeters).incomeOnly
      + (Visualizer.calculateDonutStats ddist dmarkers minMeters maxMeters).bothCriteria
      = (Visualizer.calculateDonutStats ddist dmarkers minMeters maxMeters).totalMarkers) := by
  constructor
  · have := SpatialUtils.circle_fold_sum dist radiusMeters markers
      SpatialUtils.initCircleStats hc rfl
    simpa [SpatialUtils.calculateCircleStats] using this
  · have := Visualizer.donut_fold_sum ddist minMeters maxMeters dmarkers
      Visualizer.initDonutStats hd rfl
    simpa [Visualizer.calculateDonutStats] using this

/-- Witness for C1 at a concrete input: one education-only marker inside a
circle and one income-only marker inside a donut band. -/
theorem claim1_category_counts_sum_witness :
    ((SpatialUtils.calculateCircleStats (fun _ => 0) 0 [⟨true, false, 0, 0, none⟩]).educationOnly
      + (SpatialUtils.calculateCircleStats (fun _ => 0) 0 [⟨true, false, 0, 0, none⟩]).incomeOnly
      + (SpatialUtils.calculateCircleStats (fun _ => 0) 0
          [⟨true, false, 0, 0, none⟩]).bothCriteria
      = (SpatialUtils.calculateCircleStats (fun _ => 0) 0
          [⟨true, false, 0, 0, none⟩]).totalMarkers)
    ∧ ((Visualizer.calculateDonutStats (fun _ => 1) [⟨some ⟨false, true, 0, 0, none⟩⟩]
          0 1).educationOnly
      + (Visualizer.calculateDonutStats (fun _ => 1) [⟨some ⟨false, true, 0, 0, none⟩⟩]
          0 1).incomeOnly
      + (Visualizer.calculateDonutStats (fun _ => 1) [⟨some ⟨false, true, 0, 0, none⟩⟩]
          0 1).bothCriteria
      = (Visualizer.calculateDonutStats (fun _ => 1) [⟨some ⟨false, true, 0, 0, none⟩⟩]
          0 1).totalMarkers) :=
  claim1_category_counts_sum (fun _ => 0) 0 [⟨true, false, 0, 0, none⟩]
    (fun _ => 1) [⟨some ⟨false, true, 0, 0, none⟩⟩] 0 1
    (by decide) (by decide)

namespace SpatialUtils

/-- Only truthy (nonzero, present) values are ever collected into the
circle median list. -/
theorem collectedIncomes_ne_zero (dist : MarkerData → ℚ) (radiusMeters : ℚ)
    (markers : List MarkerData) :
    ∀ v ∈ collectedIncomes dist radiusMeters markers, v ≠ 0 := by
  intro v hv
  rw [collectedIncomes, List.mem_filterMap] at hv
  obtain ⟨m, hm, hsome⟩ := hv
  by_cases ht : truthyOpt m.medianIncome
  · rw [if_pos ht] at hsome
    rw [hsome] at ht
    simpa [truthyOpt] using ht
  · rw [if_neg ht] at hsome
    cases hsome

/-- When every qualifying marker's `medianIncome` is `null` or `0`, the
circle median list stays empty. -/
theorem collectedIncomes_eq_nil (dist : MarkerData → ℚ) (radiusMeters : ℚ)
    (markers : List MarkerData)
    (h : ∀ m ∈ markers, dist m ≤ radiusMeters →
      m.medianIncome = none ∨ m.medianIncome = some 0) :
    collectedIncomes dist radiusMeters markers = [] := by
  rw [collectedIncomes, List.filterMap_eq_nil_iff]
  intro m hm
  rw [List.mem_filter] at hm
  obtain ⟨hmem, hdist⟩ := hm
  have hdist2 : dist m ≤ radiusMeters := by simpa using hdist
  rcases h m hmem hdist2 with h0 | h0 <;> simp [h0, truthyOpt]

/-- The median list of the returned circle stats record is the collected
list. -/
theorem calculateCircleStats_medianIncomes (dist : MarkerData → ℚ) (radiusMeters : ℚ)
    (markers : List MarkerData) :
    (calculateCircleStats dist radiusMeters markers).medianIncomes
      = collectedIncomes dist radiusMeters markers := by
  simp only [calculateCircleStats]
  rw [circle_fold_medianIncomes]
  simp [initCircleStats]

end SpatialUtils

namespace Visualizer

/-- Only truthy (nonzero, present) values are ever collected into the
donut median list. -/
theorem collectedDonutIncomes_ne_zero (dist : DMarker → ℚ) (minMeters maxMeters : ℚ)
    (markers : List DMarker) :
    ∀ v ∈ collectedDonutIncomes dist minMeters maxMeters markers, v ≠ 0 := by
  intro v hv
  rw [collectedDonutIncomes, List.mem_filterMap] at hv
  obtain ⟨m, hm, hsome⟩ := hv
  cases hd : m.data with
  | none => rw [hd] at hsome; cases hsome
  | some d =>
    rw [hd] at hsome
    have hsome2 : (if (minMeters < dist m ∧ dist m ≤ maxMeters) ∧ truthyOpt d.medianIncome
        then d.medianIncome else none) = some v := hsome
    by_cases hc : (minMeters < dist m ∧ dist m ≤ maxMeters) ∧ truthyOpt d.medianIncome
    · rw [if_pos hc] at hsome2
      have ht := hc.2
      rw [hsome2] at ht
      simpa [truthyOpt] using ht
    · rw [if_neg hc] at hsome2
      cases hsome2

/-- When every qualifying data-bearing marker's `medianIncome` is `null`
or `0`, the donut median list stays empty. -/
theorem collectedDonutIncomes_eq_nil (dist : DMarker → ℚ) (minMeters maxMeters : ℚ)
    (markers : List DMarker)
    (h : ∀ m ∈ markers, ∀ d, m.data = some d →
      (minMeters < dist m ∧ dist m ≤ maxMeters) →
      d.medianIncome = none ∨ d.medianIncome = some 0) :
    collectedDonutIncomes dist minMeters maxMeters markers = [] := by
  rw [collectedDonutIncomes, List.filterMap_eq_nil_iff]
  intro m hm
  cases hd : m.data with
  | none => simp
  | some d =>
    by_cases hband : minMeters < dist m ∧ dist m ≤ maxMeters
    · rcases h m hm d hd hband with h0 | h0 <;> simp [h0, truthyOpt]
    · simp [hband]

/-- The median list of the returned donut stats record is the collected
list. -/
theorem calculateDonutStats_medianIncomes (dist : DMarker → ℚ)
    (markers : List DMarker) (minMeters maxMeters : ℚ) :
    (calculateDonutStats dist markers minMeters maxMeters).medianIncomes
      = collectedDonutIncomes dist minMeters maxMeters markers := by
  simp only [calculateDonutStats]
  rw [donut_fold_medianIncomes]
  simp [initDonutStats]

end Visualizer

/-- C10 (implicit): a qualifying marker whose `medianIncome` is 0 or
null/undefined is excluded from the median computation — only truthy
values enter the collected list — so a region all of whose members report
`medianIncome = 0` (or none) yields a stats record with no median value
set. -/
theorem claim10_zero_median_excluded (dist : MarkerData → ℚ) (radiusMeters : ℚ)
    (markers : List MarkerData) (ddist : Visualizer.DMarker → ℚ)
    (dmarkers : List Visualizer.DMarker) (minMeters maxMeters : ℚ) :
    (∀ v ∈ (SpatialUtils.calculateCircleStats dist radiusMeters markers).medianIncomes,
      v ≠ 0)
    ∧ (∀ v ∈ (Visualizer.calculateDonutStats ddist dmarkers minMeters
        maxMeters).medianIncomes, v ≠ 0)
    ∧ ((∀ m ∈ markers, dist m ≤ radiusMeters →
          m.medianIncome = none ∨ m.medianIncome = some 0) →
        (SpatialUtils.calculateCircleStats dist radiusMeters markers).medianIncome = none)
    ∧ ((∀ m ∈ dmarkers, ∀ d, m.data = some d →
          (minMeters < ddist m ∧ ddist m ≤ maxMeters) →
          d.medianIncome = none ∨ d.medianIncome = some 0) →
        (Visualizer.calculateDonutStats ddist dmarkers minMeters maxMeters).medianIncome
          = none) := by
  refine ⟨?_, ?_, ?_, ?_⟩
  · rw [SpatialUtils.calculateCircleStats_medianIncomes]
    exact SpatialUtils.collectedIncomes_ne_zero dist radiusMeters markers
  · rw [Visualizer.calculateDonutStats_medianIncomes]
    exact Visualizer.collectedDonutIncomes_ne_zero ddist minMeters maxMeters dmarkers
  · intro h
    simp only [SpatialUtils.calculateCircleStats]
    rw [SpatialUtils.circle_fold_medianIncomes,
      SpatialUtils.collectedIncomes_eq_nil dist radiusMeters markers h]
    simp [SpatialUtils.initCircleStats, jsMedian]
  · intro h
    simp only [Visualizer.calculateDonutStats]
    rw [Visualizer.donut_fold_medianIncomes,
      Visualizer.collectedDonutIncomes_eq_nil ddist minMeters maxMeters dmarkers h]
    simp [Visualizer.initDonutStats, jsMedian]

/-- Witness for C10 at a concrete input: a region whose single member
reports `medianIncome = 0` yields no median. -/
theorem claim10_zero_median_excluded_witness :
    (SpatialUtils.calculateCircleStats (fun _ => 0) 0
      [⟨true, false, 0, 0, some 0⟩]).medianIncome = none
    ∧ (Visualizer.calculateDonutStats (fun _ => 1)
      [⟨some ⟨false, true, 0, 0, some 0⟩⟩] 0 1).medianIncome = none := by
  have h := claim10_zero_median_excluded (fun _ => 0) 0 [⟨true, false, 0, 0, some 0⟩]
    (fun _ => 1) [⟨some ⟨false, true, 0, 0, some 0⟩⟩] 0 1
  refine ⟨h.2.2.1 ?_, h.2.2.2 ?_⟩
  · intro m hm hdist
    simp only [List.mem_singleton] at hm
    subst hm
    right
    rfl
  · intro m hm d hd hband
    simp only [List.mem_singleton] at hm
    subst hm
    cases hd
    right
    rfl

namespace APIService

/-- Reading the key just written by `store.put` yields the new entry. -/
theorem storeGet_storePut_same {V : Type} :
    ∀ (store : List (CacheEntry V)) (e : CacheEntry V),
      storeGet (storePut store e) e.key = some e := by
  intro store e
  rw [storePut]
  by_cases hany : store.any (fun e2 => e2.key == e.key)
  · rw [if_pos hany]
    induction store with
    | nil => simp at hany
    | cons a t ih =>
      rw [List.map_cons]
      by_cases ha : a.key == e.key
      · rw [if_pos ha]
        simp [storeGet]
      · rw [if_neg ha]
        have hany2 : t.any (fun e2 => e2.key == e.key) := by
          rcases List.any_eq_true.mp hany with ⟨x, hx, hxk⟩
          rcases List.mem_cons.mp hx with rfl | hx2
          · exact absurd hxk ha
          · exact List.any_eq_true.mpr ⟨x, hx2, hxk⟩
        have := ih hany2
        rw [storeGet] at this ⊢
        rw [List.find?_cons_of_neg _ (by simpa using ha)]
        exact this
  · rw [if_neg hany]
    induction store with
    | nil => simp [storeGet]
    | cons a t ih =>
      have ha : (a.key == e.key) = false := by
        by_contra hcon
        exact hany (List.any_eq_true.mpr ⟨a, List.mem_cons_self a t,
          by simpa using hcon⟩)
      have hany2 : ¬ t.any (fun e2 => e2.key == e.key) := by
        intro hcon
        rcases List.any_eq_true.mp hcon with ⟨x, hx, hxk⟩
        exact hany (List.any_eq_true.mpr ⟨x, List.mem_cons_of_mem a hx, hxk⟩)
      rw [List.cons_append, storeGet, List.find?_cons_of_neg _ (by simpa using ha)]
      exact ih hany2

/-- A deleted key is no longer found. -/
theorem storeGet_storeDelete_same {V : Type} (store : List (CacheEntry V)) (k : String) :
    storeGet (storeDelete store k) k = none := by
  rw [storeGet, List.find?_eq_none]
  intro e he
  rw [storeDelete, List.mem_filter] at he
  simpa using he.2

/-- The durable-availability flag is untouched by reads and writes. -/
theorem getFromCache_db {V : Type} (s : CacheState V) (now : ℤ) (zip : String) :
    ((getFromCache s now zip).2).db = s.db := by
  rw [getFromCache]
  by_cases hdb : s.db = false
  · simp [hdb]
  · simp only [if_neg hdb]
    cases hget : storeGet s.store (cachePrefix ++ zip) with
    | none => rfl
    | some cached =>
      by_cases hexp : now > cached.expiry
      · simp [hexp]
      · simp [hexp]

end APIService

/-- C2: writing a payload with `cacheData(zip, data)` and immediately
reading `getFromCache(zip)` returns the payload unchanged; and a stored
entry whose expiry is in the past is deleted by `getFromCache`, which
reports a miss, and a subsequent read does not return the stale value
(both under an initialized durable store, `db = true`). -/
theorem claim2_cache_roundtrip_and_lazy_expiry {V : Type} (s : APIService.CacheState V)
    (now now2 : ℤ) (zip : String) (d : V) (e : APIService.CacheEntry V)
    (hdb : s.db = true) :
    ((APIService.getFromCache (APIService.cacheData s now zip d) now zip).1 = some d)
    ∧ (APIService.storeGet s.store (APIService.cachePrefix ++ zip) = some e →
        e.expiry < now →
        (APIService.getFromCache s now zip).1 = none
        ∧ (APIService.getFromCache ((APIService.getFromCache s now zip).2) now2 zip).1
            = none) := by
  have hdbf : ¬ s.db = false := by simp [hdb]
  constructor
  · have hput := APIService.storeGet_storePut_same s.store
      ⟨APIService.cachePrefix ++ zip, d, now + APIService.cacheDuration, now, zip⟩
    have hfresh : ¬ now > now + APIService.cacheDuration := by
      rw [APIService.cacheDuration]; omega
    simp [APIService.cacheData, APIService.getFromCache, hdbf, hput, hfresh]
  · intro hget hexp
    have hmiss : APIService.getFromCache s now zip
        = (none, ⟨s.db, APIService.storeDelete s.store (APIService.cachePrefix ++ zip)⟩) := by
      simp [APIService.getFromCache, hdbf, hget, show now > e.expiry from hexp]
    refine ⟨by rw [hmiss], ?_⟩
    rw [hmiss]
    simp [APIService.getFromCache, hdbf, APIService.storeGet_storeDelete_same]

/-- Witness for C2: a store holding one stale entry for ZIP 99999; the
write-then-read round-trip returns the new payload, and the stale entry is
lazily expired and stays gone. -/
theorem claim2_cache_roundtrip_and_lazy_expiry_witness :
    ((APIService.getFromCache (APIService.cacheData
        (⟨true, [⟨"acs_2022_99999", 5, -1, -2, "99999"⟩]⟩ : APIService.CacheState ℕ)
        0 "99999" 7) 0 "99999").1 = some 7)
    ∧ ((APIService.getFromCache
        (⟨true, [⟨"acs_2022_99999", 5, -1, -2, "99999"⟩]⟩ : APIService.CacheState ℕ)
        0 "99999").1 = none
      ∧ (APIService.getFromCache ((APIService.getFromCache
          (⟨true, [⟨"acs_2022_99999", 5, -1, -2, "99999"⟩]⟩ : APIService.CacheState ℕ)
          0 "99999").2) 11 "99999").1 = none) := by
  have h := claim2_cache_roundtrip_and_lazy_expiry
    (⟨true, [⟨"acs_2022_99999", 5, -1, -2, "99999"⟩]⟩ : APIService.CacheState ℕ)
    0 11 "99999" 7 ⟨"acs_2022_99999", 5, -1, -2, "99999"⟩ rfl
  exact ⟨h.1, h.2 (by decide) (by decide)⟩

namespace APIService

/-- Lookup in a cons result object. -/
theorem alookup_cons {α V : Type} [DecidableEq α] (p : α × V) (l : List (α × V)) (k : α) :
    alookup (p :: l) k = if p.1 = k then some p.2 else alookup l k := by
  by_cases h : p.1 = k
  · rw [alookup, List.find?_cons_of_pos _ (by simpa using h), if_pos h]
  · rw [alookup, List.find?_cons_of_neg _ (by simpa using h), if_neg h, alookup]

/-- `Object.assign`: a key bound in the source keeps the source's
binding. -/
theorem alookup_objAssign_of_some {α V : Type} [DecidableEq α] (a b : List (α × V))
    (k : α) (v : V) (h : alookup b k = some v) :
    alookup (objAssign a b) k = some v := by
  induction a with
  | nil => simpa [objAssign]
  | cons p t ih =>
    rw [objAssign, List.filter_cons]
    by_cases hp : (alookup b p.1).isNone
    · rw [if_pos (by simpa using hp), List.cons_append, alookup_cons]
      have hpk : ¬ p.1 = k := by
        intro hk
        rw [hk, h] at hp
        simp at hp
      rw [if_neg hpk]
      rw [objAssign] at ih
      exact ih
    · rw [if_neg (by simpa using hp)]
      rw [objAssign] at ih
      exact ih

/-- `Object.assign`: a key unbound in the source falls back to the
target's binding. -/
theorem alookup_objAssign_of_none {α V : Type} [DecidableEq α] (a b : List (α × V))
    (k : α) (h : alookup b k = none) :
    alookup (objAssign a b) k = alookup a k := by
  induction a with
  | nil => simpa [objAssign, alookup]
  | cons p t ih =>
    rw [objAssign, List.filter_cons]
    by_cases hp : (alookup b p.1).isNone
    · rw [if_pos (by simpa using hp), List.cons_append, alookup_cons, alookup_cons]
      rw [objAssign] at ih
      rw [ih]
    · rw [if_neg (by simpa using hp)]
      have hpk : ¬ p.1 = k := by
        intro hk
        rw [hk, h] at hp
        simp at hp
      rw [alookup_cons, if_neg hpk]
      rw [objAssign] at ih
      exact ih

/-- A key is present after `Object.assign` iff it is present in the target
or in the source. -/
theorem alookup_objAssign_isSome {α V : Type} [DecidableEq α] (a b : List (α × V))
    (k : α) :
    (alookup (objAssign a b) k).isSome
      = ((alookup a k).isSome || (alookup b k).isSome) := by
  cases hb : alookup b k with
  | some v => rw [alookup_objAssign_of_some a b k v hb]; simp
  | none => rw [alookup_objAssign_of_none a b k hb]; simp

/-- A key is present in the accumulated result of the `fetchMissingData`
batch loop iff it was already present or some batch fetched it
successfully. -/
theorem fetchMissingData_fold_isSome {α V : Type} [DecidableEq α]
    (oracle : List α → Option (List (α × V))) (k : α) :
    ∀ (batches : List (List α)) (acc : List (α × V)),
      (alookup (batches.foldl (fun acc b =>
          match fetchBatchFromAPI oracle b with
          | .ok r => objAssign acc r
          | .error _ => acc) acc) k).isSome
        ↔ ((alookup acc k).isSome
            ∨ ∃ b ∈ batches, ∃ r, fetchBatchFromAPI oracle b = .ok r
                ∧ (alookup r k).isSome) := by
  intro batches
  induction batches with
  | nil => intro acc; simp
  | cons b bs ih =>
    intro acc
    simp only [List.foldl_cons]
    cases hf : fetchBatchFromAPI oracle b with
    | error u =>
      rw [ih]
      constructor
      · rintro (hacc | ⟨b2, hb2, r, hr, hk⟩)
        · exact Or.inl hacc
        · exact Or.inr ⟨b2, List.mem_cons_of_mem b hb2, r, hr, hk⟩
      · rintro (hacc | ⟨b2, hb2, r, hr, hk⟩)
        · exact Or.inl hacc
        · rcases List.mem_cons.mp hb2 with rfl | hb3
          · rw [hf] at hr; cases hr
          · exact Or.inr ⟨b2, hb3, r, hr, hk⟩
    | ok r =>
      rw [ih]
      rw [alookup_objAssign_isSome]
      constructor
      · rintro (hor | ⟨b2, hb2, r2, hr2, hk⟩)
        · rcases Bool.or_eq_true_iff.mp hor with hacc | hrk
          · exact Or.inl hacc
          · exact Or.inr ⟨b, List.mem_cons_self b bs, r, hf, hrk⟩
        · exact Or.inr ⟨b2, List.mem_cons_of_mem b hb2, r2, hr2, hk⟩
      · rintro (hacc | ⟨b2, hb2, r2, hr2, hk⟩)
        · exact Or.inl (by rw [hacc]; simp)
        · rcases List.mem_cons.mp hb2 with rfl | hb3
          · rw [hf] at hr2
            cases hr2
            exact Or.inl (by rw [hk]; simp)
          · exact Or.inr ⟨b2, hb3, r2, hr2, hk⟩

/-- The chunk lengths depend only on the input length. -/
theorem chunkAux_map_length {α : Type} (size : ℕ) :
    ∀ (fuel : ℕ) (l : List α),
      (chunkAux size fuel l).map List.length = chunkLens size fuel l.length := by
  intro fuel
  induction fuel with
  | zero => intro l; cases l <;> simp [chunkAux, chunkLens]
  | succ n ih =>
    intro l
    cases l with
    | nil => simp [chunkAux, chunkLens]
    | cons a t =>
      simp only [chunkAux, List.map_cons, List.length_cons, chunkLens, ih,
        List.length_take, List.length_drop]

end APIService

/-- C6: the fetch client never propagates a single-batch failure: a failed
batch of more than 5 ZIPs is recursively retried as sub-batches of at most
5 rather than erroring, and `fetchMissingData` returns exactly the merged
results of the batches that succeeded — every key fetched by a successful
batch is present in the returned map, and ZIPs bound by no successful
batch are absent. -/
theorem claim6_batch_failure_recovery {α V : Type} [DecidableEq α]
    (oracle : List α → Option (List (α × V))) (zips : List α) :
    (∀ b : List α, 5 < b.length →
      ∃ r, APIService.fetchBatchFromAPI oracle b = .ok r)
    ∧ (∀ b : List α, ∀ c ∈ APIService.chunkArray b 5, c.length ≤ 5)
    ∧ (∀ (k : α) (v : V),
        APIService.alookup (APIService.fetchMissingData oracle zips) k = some v →
        ∃ b ∈ APIService.chunkArray zips 30, ∃ r,
          APIService.fetchBatchFromAPI oracle b = .ok r
            ∧ (APIService.alookup r k).isSome)
    ∧ (∀ k : α,
        (∀ b ∈ APIService.chunkArray zips 30, ∀ r,
          APIService.fetchBatchFromAPI oracle b = .ok r →
          APIService.alookup r k = none) →
        APIService.alookup (APIService.fetchMissingData oracle zips) k = none)
    ∧ (∀ k : α, ∀ b ∈ APIService.chunkArray zips 30, ∀ r,
        APIService.fetchBatchFromAPI oracle b = .ok r →
        (APIService.alookup r k).isSome →
        (APIService.alookup (APIService.fetchMissingData oracle zips) k).isSome) := by
  refine ⟨?_, ?_, ?_, ?_, ?_⟩
  · intro b hb
    have hne : b ≠ [] := by intro h; subst h; simp at hb
    obtain ⟨a, l, rfl⟩ := List.exists_cons_of_ne_nil hne
    rw [APIService.fetchBatchFromAPI, List.length_cons]
    cases ho : oracle (a :: l) with
    | some data => exact ⟨data, by rw [APIService.fetchBatchAux, ho]⟩
    | none =>
      cases hres : APIService.fetchBatchAux oracle (l.length + 1) (a :: l) with
      | ok r => exact ⟨r, rfl⟩
      | error u =>
        rw [APIService.fetchBatchAux, ho, if_pos (by simpa using hb)] at hres
        cases hres
  · intro b c hc
    exact APIService.chunkAux_mem_length_le b.length b c hc
  · intro k v hv
    have := (APIService.fetchMissingData_fold_isSome oracle k
      (APIService.chunkArray zips 30) []).mp
      (by rw [APIService.fetchMissingData] at hv; rw [hv]; simp)
    rcases this with habs | hfound
    · simp [APIService.alookup] at habs
    · exact hfound
  · intro k hall
    cases hv : APIService.alookup (APIService.fetchMissingData oracle zips) k with
    | none => rfl
    | some v =>
      rcases (APIService.fetchMissingData_fold_isSome oracle k
        (APIService.chunkArray zips 30) []).mp
        (by rw [APIService.fetchMissingData] at hv; rw [hv]; simp) with habs | hfound
      · simp [APIService.alookup] at habs
      · obtain ⟨b, hb, r, hr, hk⟩ := hfound
        rw [hall b hb r hr] at hk
        simp at hk
  · intro k b hb r hr hk
    rw [APIService.fetchMissingData]
    exact (APIService.fetchMissingData_fold_isSome oracle k
      (APIService.chunkArray zips 30) []).mpr (Or.inr ⟨b, hb, r, hr, hk⟩)

/-- Witness for C6: with an oracle that rejects batches larger than 5, a
7-ZIP batch still resolves (via 5-and-2 sub-batches) and its fetched key 3
is present in the map `fetchMissingData` returns; with an oracle that
always fails, a 3-ZIP batch errors and its ZIPs are absent from the
(returned, never-thrown) result. -/
theorem claim6_batch_failure_recovery_witness :
    (∃ r, APIService.fetchBatchFromAPI
      (fun b : List ℕ => if 5 < b.length then none
        else some (b.map (fun z => (z, z)))) (List.range 7) = .ok r)
    ∧ (APIService.alookup (APIService.fetchMissingData
        (fun b : List ℕ => if 5 < b.length then none
          else some (b.map (fun z => (z, z)))) (List.range 7)) 3).isSome
    ∧ APIService.alookup (APIService.fetchMissingData
        (fun _ : List ℕ => (none : Option (List (ℕ × ℕ)))) [0, 1, 2]) 1 = none := by
  refine ⟨?_, ?_, ?_⟩
  · exact (claim6_batch_failure_recovery
      (fun b : List ℕ => if 5 < b.length then none else some (b.map (fun z => (z, z))))
      (List.range 7)).1 (List.range 7) (by decide)
  · have hr : APIService.fetchBatchFromAPI
        (fun b : List ℕ => if 5 < b.length then none else some (b.map (fun z => (z, z))))
        (List.range 7)
        = .ok [(0, 0), (1, 1), (2, 2), (3, 3), (4, 4), (5, 5), (6, 6)] := rfl
    exact (claim6_batch_failure_recovery
      (fun b : List ℕ => if 5 < b.length then none else some (b.map (fun z => (z, z))))
      (List.range 7)).2.2.2.2 3 (List.range 7) (by decide) _ hr (by decide)
  · refine (claim6_batch_failure_recovery
      (fun _ : List ℕ => (none : Option (List (ℕ × ℕ)))) [0, 1, 2]).2.2.2.1 1 ?_
    intro b hb r hr
    have hb2 : b = [0, 1, 2] := by
      have : APIService.chunkArray [0, 1, 2] 30 = [[0, 1, 2]] := by decide
      rw [this] at hb
      simpa using hb
    subst hb2
    have hfail : APIService.fetchBatchFromAPI
        (fun _ : List ℕ => (none : Option (List (ℕ × ℕ)))) [0, 1, 2] = .error () := rfl
    rw [hfail] at hr
    cases hr

/-- C7: `fetchCombinedData` deduplicates its input before any cache
lookup (each requested ZIP is looked up exactly once) and splits the
cache-missing ZIPs into upstream batches of at most 30; 65 missing ZIPs
give exactly the batch sizes 30, 30, 5. -/
theorem claim7_dedup_and_batching {α V : Type} [DecidableEq α]
    (cache : α → Option V) (zips : List α) :
    (∀ z : α, (APIService.cacheLookupSequence zips).count z
      = if z ∈ zips then 1 else 0)
    ∧ (∀ b ∈ APIService.upstreamBatches cache zips, b.length ≤ 30)
    ∧ ((APIService.missingZips cache zips).length = 65 →
        (APIService.upstreamBatches cache zips).map List.length = [30, 30, 5]) := by
  refine ⟨?_, ?_, ?_⟩
  · intro z
    rw [APIService.cacheLookupSequence, APIService.chunkArray,
      APIService.chunkAux_join (by norm_num) _ _ le_rfl, APIService.setDedup,
      APIService.setDedupAux_count]
    simp
  · intro b hb
    exact APIService.chunkAux_mem_length_le _ _ b hb
  · intro h65
    rw [APIService.upstreamBatches, APIService.chunkArray,
      APIService.chunkAux_map_length, h65]
    decide

/-- Witness for C7: 65 distinct uncached ZIPs are split into upstream
batches of sizes 30, 30 and 5. -/
theorem claim7_dedup_and_batching_witness :
    (APIService.upstreamBatches (fun _ : ℕ => (none : Option ℕ))
      (List.range 65)).map List.length = [30, 30, 5] :=
  (claim7_dedup_and_batching (fun _ : ℕ => (none : Option ℕ))
    (List.range 65)).2.2 (by decide)

/-- C8: the weighted outer band of `finishDrawing` has multiplier 1, so
its band bounds coincide with the unweighted outer donut band
(10–25 miles) and the two stats records agree for every marker set and
distance function. -/
theorem claim8_weighted_outer_equals_outer :
    ∀ (dist : Visualizer.DMarker → ℚ) (markers : List Visualizer.DMarker),
      Visualizer.weightedOuterDonutStats dist markers
        = Visualizer.outerDonutStats dist markers := by
  intro dist markers
  rfl

namespace Navigator

/-- Rewriting lemma: a step on a direction-mismatching marker keeps the
accumulator. -/
theorem navStep_not_inDir (center : ℚ × ℚ) (key : KeyDir) (acc : Option (ℚ × NavMarker))
    (m : NavMarker) (hdir : isInDirection key center m = false) :
    navStep center key acc m = acc := by
  cases acc <;> simp [navStep, hdir]

/-- Rewriting lemma: the first direction-matching marker becomes the
best. -/
theorem navStep_none_inDir (center : ℚ × ℚ) (key : KeyDir) (m : NavMarker)
    (hdir : isInDirection key center m = true) :
    navStep center key none m = some (distSq center m, m) := by
  simp [navStep, hdir]

/-- Rewriting lemma: a strictly closer direction-matching marker replaces
the best. -/
theorem navStep_some_closer (center : ℚ × ℚ) (key : KeyDir) (bd : ℚ) (b m : NavMarker)
    (hdir : isInDirection key center m = true) (hlt : distSq center m < bd) :
    navStep center key (some (bd, b)) m = some (distSq center m, m) := by
  simp [navStep, hdir, hlt]

/-- Rewriting lemma: a direction-matching marker at least as far keeps the
best. -/
theorem navStep_some_farther (center : ℚ × ℚ) (key : KeyDir) (bd : ℚ) (b m : NavMarker)
    (hdir : isInDirection key center m = true) (hge : ¬ distSq center m < bd) :
    navStep center key (some (bd, b)) m = some (bd, b) := by
  simp [navStep, hdir, hge]

/-- Invariant of the part_000 navigator fold: a `some` result either is
the untouched accumulator or a direction-matching input marker at its own
squared distance, it never exceeds the accumulator's distance, and it is
at most every direction-matching input marker's distance. -/
theorem navFold_some (center : ℚ × ℚ) (key : KeyDir) :
    ∀ (markers : List NavMarker) (acc : Option (ℚ × NavMarker)) (bd : ℚ) (m : NavMarker),
      markers.foldl (navStep center key) acc = some (bd, m) →
      ((acc = some (bd, m))
        ∨ (m ∈ markers ∧ isInDirection key center m = true ∧ bd = distSq center m))
      ∧ (∀ bd0 b0, acc = some (bd0, b0) → bd ≤ bd0)
      ∧ (∀ x ∈ markers, isInDirection key center x = true → bd ≤ distSq center x) := by
  intro markers
  induction markers with
  | nil =>
    intro acc bd m h
    simp only [List.foldl_nil] at h
    exact ⟨Or.inl h, fun bd0 b0 h0 => by rw [h0] at h; cases h; exact le_rfl,
      fun x hx => absurd hx (List.not_mem_nil x)⟩
  | cons y t ih =>
    intro acc bd m h
    simp only [List.foldl_cons] at h
    by_cases hdir : isInDirection key center y = true
    · cases hacc : acc with
      | none =>
        rw [hacc, navStep_none_inDir center key y hdir] at h
        obtain ⟨hsrc, hbound, hmin⟩ := ih _ bd m h
        refine ⟨?_, ?_, ?_⟩
        · rcases hsrc with heq | hnew
          · cases heq
            exact Or.inr ⟨List.mem_cons_self y t, hdir, rfl⟩
          · exact Or.inr ⟨List.mem_cons_of_mem y hnew.1, hnew.2.1, hnew.2.2⟩
        · intro bd0 b0 h0
          exact absurd h0 (by simp)
        · intro x hx hxdir
          rcases List.mem_cons.mp hx with rfl | hxt
          · exact hbound (distSq center x) x rfl
          · exact hmin x hxt hxdir
      | some p =>
        obtain ⟨bd0, b0⟩ := p
        by_cases hlt : distSq center y < bd0
        · rw [hacc, navStep_some_closer center key bd0 b0 y hdir hlt] at h
          obtain ⟨hsrc, hbound, hmin⟩ := ih _ bd m h
          refine ⟨?_, ?_, ?_⟩
          · rcases hsrc with heq | hnew
            · cases heq
              exact Or.inr ⟨List.mem_cons_self y t, hdir, rfl⟩
            · exact Or.inr ⟨List.mem_cons_of_mem y hnew.1, hnew.2.1, hnew.2.2⟩
          · intro bd1 b1 h1
            cases h1
            exact le_trans (hbound (distSq center y) y rfl) (le_of_lt hlt)
          · intro x hx hxdir
            rcases List.mem_cons.mp hx with rfl | hxt
            · exact hbound (distSq center x) x rfl
            · exact hmin x hxt hxdir
        · rw [hacc, navStep_some_farther center key bd0 b0 y hdir hlt] at h
          obtain ⟨hsrc, hbound, hmin⟩ := ih _ bd m h
          refine ⟨?_, ?_, ?_⟩
          · rcases hsrc with heq | hnew
            · exact Or.inl heq
            · exact Or.inr ⟨List.mem_cons_of_mem y hnew.1, hnew.2.1, hnew.2.2⟩
          · intro bd1 b1 h1
            cases h1
            exact hbound bd0 b0 rfl
          · intro x hx hxdir
            rcases List.mem_cons.mp hx with rfl | hxt
            · exact le_trans (hbound bd0 b0 rfl) (le_of_not_lt hlt)
            · exact hmin x hxt hxdir
    · rw [navStep_not_inDir center key acc y (Bool.not_eq_true _ ▸ hdir : _)] at h
      obtain ⟨hsrc, hbound, hmin⟩ := ih _ bd m h
      refine ⟨?_, hbound, ?_⟩
      · rcases hsrc with heq | hnew
        · exact Or.inl heq
        · exact Or.inr ⟨List.mem_cons_of_mem y hnew.1, hnew.2.1, hnew.2.2⟩
      · intro x hx hxdir
        rcases List.mem_cons.mp hx with rfl | hxt
        · rw [hxdir] at hdir; exact absurd rfl hdir
        · exact hmin x hxt hxdir

/-- C9 (amended): the part_000 navigator (`findNearestInDirection`)
considers only markers qualifying by strict coordinate inequality for the
pressed direction, selects among them one at minimal planar distance, and
selects no marker when none qualifies; the `src/js/mapVisualizer.js`
variant instead maximizes a direction/distance score and does not satisfy
this contract (see the counterexample). -/
theorem claim9_directional_navigation (markers : List NavMarker) (center : ℚ × ℚ)
    (key : KeyDir) :
    (∀ m, findNearestInDirection markers center key = some m →
      m ∈ markers ∧ isInDirection key center m = true
        ∧ ∀ x ∈ markers, isInDirection key center x = true →
            distSq center m ≤ distSq center x)
    ∧ ((∀ m ∈ markers, isInDirection key center m = false) →
        findNearestInDirection markers center key = none) := by
  constructor
  · intro m hm
    rw [findNearestInDirection] at hm
    rcases Option.map_eq_some'.mp hm with ⟨⟨bd, m2⟩, hfold, hsnd⟩
    cases hsnd
    obtain ⟨hsrc, _, hmin⟩ := navFold_some center key markers none bd m2 hfold
    rcases hsrc with heq | hnew
    · cases heq
    · exact ⟨hnew.1, hnew.2.1, fun x hx hxdir => hnew.2.2 ▸ hmin x hx hxdir⟩
  · intro hall
    rw [findNearestInDirection]
    cases hfold : markers.foldl (navStep center key) none with
    | none => rfl
    | some p =>
      obtain ⟨bd, m⟩ := p
      obtain ⟨hsrc, _, _⟩ := navFold_some center key markers none bd m hfold
      rcases hsrc with heq | hnew
      · cases heq
      · rw [hall m hnew.1] at hnew
        exact absurd hnew.2.1 (by simp)

/-- Witness for C9 at a concrete input: with one marker due north, a 'w'
press selects it, and it qualifies and is minimal. -/
theorem claim9_directional_navigation_witness :
    (⟨1, 0⟩ : NavMarker) ∈ [(⟨1, 0⟩ : NavMarker)]
    ∧ isInDirection KeyDir.w (0, 0) ⟨1, 0⟩ = true
    ∧ ∀ x ∈ [(⟨1, 0⟩ : NavMarker)], isInDirection KeyDir.w (0, 0) x = true →
        distSq (0, 0) ⟨1, 0⟩ ≤ distSq (0, 0) x :=
  (claim9_directional_navigation [⟨1, 0⟩] (0, 0) KeyDir.w).1 ⟨1, 0⟩ (by decide)

/-- C9 counterexample: the `src/js/mapVisualizer.js` navigator selects the
lone marker due SOUTH of the center on a 'w' (north) press — its latitude
is not strictly greater than the center's, so the claim's "considers only
markers qualifying by strict inequality / selects no marker when none
qualifies" is false on this cited source. -/
theorem claim9_counterexample :
    mvNavigate [mvSouthMarker] (0, 0) KeyDir.w = some mvSouthMarker
    ∧ ¬ (mvSouthMarker.lat > (0 : ℚ × ℚ).1) := by
  constructor
  · have h1 : (mvSouthMarker.lat - ((0 : ℝ), (0 : ℝ)).1) = -(1 / 10) := by
      norm_num [mvSouthMarker]
    have h2 : (mvSouthMarker.lng - ((0 : ℝ), (0 : ℝ)).2) = 0 := by
      norm_num [mvSouthMarker]
    have hsq : ((-(1 / 10) : ℝ) * (-(1 / 10)) + 0 * 0) = ((1 / 10 : ℝ)) ^ 2 := by
      norm_num
    have hdist : Real.sqrt ((-(1 / 10) : ℝ) * (-(1 / 10)) + 0 * 0) = 1 / 10 := by
      rw [hsq, Real.sqrt_sq (by norm_num : (0 : ℝ) ≤ 1 / 10)]
    rw [mvNavigate]
    simp only [List.foldl_cons, List.foldl_nil, mvStep, h1, h2, hdist]
    rw [if_neg (by norm_num : ¬ (1 / 10 : ℝ) = 0)]
    have hscore : max 0 ((-(1 / 10) : ℝ) / (1 / 10) * 1 + 0 / (1 / 10) * 0) * 2
        + 1 / (1 / 10 + 1 / 10) * (1 / 2) > 1 / 2 := by
      have hm : max (0 : ℝ) ((-(1 / 10) : ℝ) / (1 / 10) * 1 + 0 / (1 / 10) * 0) = 0 := by
        rw [max_eq_left]
        norm_num
      rw [hm]
      norm_num
    simp only [gt_iff_lt]
    rw [if_pos (by exact hscore)]
  · norm_num [mvSouthMarker]

end Navigator

namespace Hotspots

/-- Ranks assigned by step 4 are consecutive from the starting index plus
one. -/
theorem finalizeHotspots_map_rank :
    ∀ (l : List Hotspot) (n : ℕ),
      (finalizeHotspots n l).map RankedHotspot.rank = List.range' (n + 1) l.length := by
  intro l
  induction l with
  | nil => intro n; simp [finalizeHotspots]
  | cons h t ih =>
    intro n
    rw [finalizeHotspots]
    simp only [List.map_cons, List.length_cons, ih (n + 1)]
    rw [List.range'_succ (n + 1) t.length 1]

/-- Step 4 keeps each cluster's intensity. -/
theorem finalizeHotspots_map_intensity :
    ∀ (l : List Hotspot) (n : ℕ),
      (finalizeHotspots n l).map RankedHotspot.intensity = l.map Hotspot.intensity := by
  intro l
  induction l with
  | nil => intro n; simp [finalizeHotspots]
  | cons h t ih =>
    intro n
    rw [finalizeHotspots]
    simp only [List.map_cons, ih (n + 1)]

/-- Step 4 keeps the list length. -/
theorem finalizeHotspots_length :
    ∀ (l : List Hotspot) (n : ℕ), (finalizeHotspots n l).length = l.length := by
  intro l
  induction l with
  | nil => intro n; rfl
  | cons h t ih =>
    intro n
    rw [finalizeHotspots]
    simp only [List.length_cons, ih (n + 1)]

/-- C5 (amended): for every non-empty marker input the hotspot list of
`findHotspots` carries dense ranks `1..N` with `N ≤ 50`, ordered by
non-increasing (descending, but not strictly: equal intensities tie)
intensity.  The "strictly descending" part of the claim fails; see the
counterexample. -/
theorem claim5_ranks_dense_capped_sorted (markers : List HMarker)
    (hne : markers ≠ []) :
    ((findHotspots markers).map RankedHotspot.rank
      = List.range' 1 (findHotspots markers).length)
    ∧ (findHotspots markers).length ≤ 50
    ∧ List.Pairwise (fun a b => b ≤ a)
        ((findHotspots markers).map RankedHotspot.intensity) := by
  have hunfold : findHotspots markers
      = finalizeHotspots 0
          (((mergeAdjacentCells (cellHotspots (buildGrid markers))
            (gridSize * (3 / 2))).insertionSort intensityDesc).take 50) := by
    rw [findHotspots, if_neg hne]
  rw [hunfold]
  set body := ((mergeAdjacentCells (cellHotspots (buildGrid markers))
    (gridSize * (3 / 2))).insertionSort intensityDesc).take 50 with hbody
  refine ⟨?_, ?_, ?_⟩
  · rw [finalizeHotspots_map_rank body 0, finalizeHotspots_length body 0]
  · rw [finalizeHotspots_length body 0, hbody]
    exact le_trans (List.length_take_le 50 _) le_rfl
  · rw [finalizeHotspots_map_intensity body 0]
    refine List.pairwise_map.mpr ?_
    have hsorted : List.Sorted intensityDesc
        ((mergeAdjacentCells (cellHotspots (buildGrid markers))
          (gridSize * (3 / 2))).insertionSort intensityDesc) :=
      List.sorted_insertionSort intensityDesc _
    exact (hsorted.sublist (List.take_sublist 50 _) : List.Pairwise intensityDesc body)

/-- Witness for C5 (amended) at a concrete input: a single both-criteria
marker yields one hotspot with rank 1. -/
theorem claim5_ranks_dense_capped_sorted_witness :
    ((findHotspots [⟨0, 0, true, true⟩]).map RankedHotspot.rank
      = List.range' 1 (findHotspots [⟨0, 0, true, true⟩]).length)
    ∧ (findHotspots [⟨0, 0, true, true⟩]).length ≤ 50
    ∧ List.Pairwise (fun a b => b ≤ a)
        ((findHotspots [⟨0, 0, true, true⟩]).map RankedHotspot.intensity) :=
  claim5_ranks_dense_capped_sorted [⟨0, 0, true, true⟩] (by decide)

/-- C5 counterexample: two far-apart single-criterion markers produce two
hotspots with dense ranks 1 and 2 but equal intensities 1 and 1, so the
hotspot at rank 1 does not have strictly greater intensity than the one at
rank 2 — the ranking is only non-strictly descending. -/
theorem claim5_counterexample :
    (findHotspots tieMarkers).map RankedHotspot.rank = [1, 2]
    ∧ (findHotspots tieMarkers).map RankedHotspot.intensity = [1, 1]
    ∧ ¬ List.Chain' (fun a b => a > b)
        ((findHotspots tieMarkers).map RankedHotspot.intensity) := by
  have heval : (findHotspots tieMarkers).map RankedHotspot.intensity = [1, 1]
      ∧ (findHotspots tieMarkers).map RankedHotspot.rank = [1, 2] := by
    rw [findHotspots, if_neg (by decide : ¬ tieMarkers = [])]
    norm_num [tieMarkers, buildGrid, addMarkerToGrid, addToCell, markerValue,
      cellX, cellY, gridSize, beq_iff_eq, cellHotspots, hotspotOfCell, mergeAdjacentCells,
      outerMergeStep, innerMergeStep, closeEnough, mergeInto, List.insertionSort,
      List.orderedInsert, intensityDesc, finalizeHotspots, calculateGeographicCenter,
      List.range_succ, List.getD_cons_zero, List.getD_cons_succ, List.range']
  refine ⟨heval.2, heval.1, ?_⟩
  rw [heval.1]
  simp

/-- C4: a merge concatenates the member lists and sums counts, total
values and intensities — the merged intensity is the running sum of the
constituents' intensities, not recomputed from the merged member set — and
on the spec's three-marker scenario with grid size 0.1° the two nearby
markers merge into a rank-1 hotspot of intensity 4 (members
`[scenarioM1, scenarioM2]`) while the distant marker forms a separate
hotspot of intensity 1. -/
theorem claim4_merge_sums_and_scenario (a b : Hotspot) (mergeDistance : ℚ)
    (h : closeEnough a b mergeDistance = true) :
    (mergeAdjacentCells [a, b] mergeDistance
      = [⟨(a.avgLat + b.avgLat) / 2, (a.avgLng + b.avgLng) / 2, a.count + b.count,
          a.totalValue + b.totalValue, a.intensity + b.intensity,
          a.markers ++ b.markers⟩])
    ∧ (findHotspots scenarioMarkers).map RankedHotspot.intensity = [4, 1]
    ∧ (findHotspots scenarioMarkers).map RankedHotspot.rank = [1, 2]
    ∧ (findHotspots scenarioMarkers).map RankedHotspot.count = [2, 1]
    ∧ (findHotspots scenarioMarkers).map RankedHotspot.markers
        = [[scenarioM1, scenarioM2], [scenarioM3]] := by
  constructor
  · rw [mergeAdjacentCells, if_neg (by simp : ¬ ([a, b].length ≤ 1))]
    simp [outerMergeStep, innerMergeStep, List.range_succ, h, mergeInto,
      List.getD_cons_zero, List.getD_cons_succ, List.range']
  · rw [findHotspots, if_neg (by decide : ¬ scenarioMarkers = [])]
    norm_num [scenarioMarkers, scenarioM1, scenarioM2, scenarioM3, buildGrid,
      addMarkerToGrid, addToCell, markerValue,
      cellX, cellY, gridSize, beq_iff_eq, cellHotspots, hotspotOfCell, mergeAdjacentCells,
      outerMergeStep, innerMergeStep, closeEnough, mergeInto, List.insertionSort,
      List.orderedInsert, intensityDesc, finalizeHotspots, calculateGeographicCenter,
      List.range_succ, List.getD_cons_zero, List.getD_cons_succ, List.range']

/-- Witness for C4 at a concrete merging pair: two co-located cells of
intensities 1 and 3 merge into one cluster of intensity 1 + 3 = 4. -/
theorem claim4_merge_sums_and_scenario_witness :
    mergeAdjacentCells [(⟨0, 0, 1, 1, 1, []⟩ : Hotspot), ⟨0, 0, 1, 3, 3, []⟩] 1
      = [⟨0, 0, 2, 4, 4, []⟩] := by
  have h := (claim4_merge_sums_and_scenario (⟨0, 0, 1, 1, 1, []⟩ : Hotspot)
    ⟨0, 0, 1, 3, 3, []⟩ 1 (by simp [closeEnough])).1
  rw [h]
  norm_num

end Hotspots

end CensusMap
